import Mathlib

/-!
Verification of the meihua proxy (geminicli2api).

The development shallowly embeds `src/app.py` (the FastAPI application:
startup event, CORS preflight handler, landing page, health check) and,
for the components whose code lives in modules not present under `src/`
(`auth`, `config`, the route modules), models them from the spec, each
such definition marked `Modelled from the spec:` in its doc comment.

Python exceptions are modelled with an explicit `Outcome` type; the
collaborator functions imported by `app.py` (`get_credentials`,
`get_user_project_id`, `onboard_user`) are oracles supplied in a
`StartupEnv`, so theorems quantify over every possible behaviour of the
missing modules.
-/

namespace Meihua

/-- OAuth2 credential record (spec section 3): access token, refresh token,
expiry (epoch seconds), optional project id, onboarding flag. -/
structure Credential where
  access_token : String
  refresh_token : String
  expiry : Int
  project_id : Option String
  onboarded : Bool
  deriving DecidableEq, Repr

/-- Result of a Python call: normal return or a raised exception. -/
inductive Outcome (α : Type) where
  | ok (val : α)
  | exn (msg : String)
  deriving DecidableEq, Repr

/-- Python truthiness of an optional string: `None` and the empty string
are falsy, every other string is truthy. -/
def pyStrTruthy : Option String → Bool
  | none => false
  | some s => !s.isEmpty

/-- The collaborator calls `startup_event` can make (network/auth side
effects), recorded in order. -/
inductive ApiCall where
  | get_credentials (allow_oauth_flow : Bool)
  | get_user_project_id
  | onboard_user
  deriving DecidableEq, Repr

/-- Environment of one startup: the `GEMINI_CREDENTIALS` environment
variable (`os.getenv`), existence of the credential file
(`os.path.exists(CREDENTIAL_FILE)`), and the behaviour of the three
functions `app.py` imports from the `auth` module. -/
structure StartupEnv where
  geminiCredsEnv : Option String
  credentialFileExists : Bool
  get_credentials : Bool → Outcome (Option Credential)
  get_user_project_id : Credential → Outcome (Option String)
  onboard_user : Credential → String → Outcome Unit

/-- What a run of `startup_event` produced: the collaborator calls made,
and the credential obtained (the server's credential state afterwards). -/
structure StartupTrace where
  calls : List ApiCall
  creds : Option Credential

/-- Lines 54-63 and 75-83 of `app.py`: the inner setup block.
`proj_id = get_user_project_id(creds)`, then `if proj_id:` (Python string
truthiness) `onboard_user(creds, proj_id)`.  Both the `get_user_project_id`
failure and the `onboard_user` failure are caught by the surrounding
`except Exception` (lines 61-63 / 81-83), which only logs.  Returns the
calls made. -/
def setup_block (env : StartupEnv) (creds : Credential) : List ApiCall :=
  ApiCall.get_user_project_id ::
    match env.get_user_project_id creds with
    | Outcome.exn _ => []
    | Outcome.ok none => []
    | Outcome.ok (some pid) =>
      if pid.isEmpty then []
      else
        match env.onboard_user creds pid with
        | Outcome.exn _ => [ApiCall.onboard_user]
        | Outcome.ok _ => [ApiCall.onboard_user]

/-- Lines 50-68 of `app.py`: `creds = get_credentials(allow_oauth_flow=False)`
inside `try`, the `except` at line 66 catching any loading exception;
`if creds:` runs the setup block, `else` only logs a warning. -/
def with_creds_branch (env : StartupEnv) : StartupTrace :=
  match env.get_credentials false with
  | Outcome.exn _ => ⟨[ApiCall.get_credentials false], none⟩
  | Outcome.ok none => ⟨[ApiCall.get_credentials false], none⟩
  | Outcome.ok (some creds) =>
    ⟨ApiCall.get_credentials false :: setup_block env creds, some creds⟩

/-- Lines 69-88 of `app.py`: no credential source found, so
`creds = get_credentials(allow_oauth_flow=True)` inside `try`, the
`except` at line 86 catching any authentication exception; `if creds:`
runs the setup block, `else` only logs an error. -/
def oauth_branch (env : StartupEnv) : StartupTrace :=
  match env.get_credentials true with
  | Outcome.exn _ => ⟨[ApiCall.get_credentials true], none⟩
  | Outcome.ok none => ⟨[ApiCall.get_credentials true], none⟩
  | Outcome.ok (some creds) =>
    ⟨ApiCall.get_credentials true :: setup_block env creds, some creds⟩

/-- Lines 37-94 of `app.py`: the startup event.  Line 49 chooses the
branch on `if env_creds_json or creds_file_exists` (Python truthiness of
the environment variable).  Every collaborator exception is caught by an
inner handler, and the outer `try`/`except` at lines 39/92 catches
anything else, so the event returns normally in every environment. -/
def startup_event (env : StartupEnv) : Outcome StartupTrace :=
  Outcome.ok
    (if pyStrTruthy env.geminiCredsEnv || env.credentialFileExists then
      with_creds_branch env
    else
      oauth_branch env)

/-- The calls `startup_event` made in environment `env`. -/
def startup_calls (env : StartupEnv) : List ApiCall :=
  match startup_event env with
  | Outcome.ok t => t.calls
  | Outcome.exn _ => []

/-- The credential held by the server after startup in environment `env`. -/
def startup_creds (env : StartupEnv) : Option Credential :=
  match startup_event env with
  | Outcome.ok t => t.creds
  | Outcome.exn _ => none

/-- Error kinds surfaced to callers (spec section 7). -/
inductive ApiErrorKind where
  | MalformedCredential
  | CredentialsRequired
  | ReauthRequired
  | OnboardError
  | SchemaError
  | BackendError
  | StreamInterrupted
  deriving DecidableEq, Repr

/-- Modelled from the spec: the Dispatcher's credential-resolution step
(the `auth` module is not under `src/`).  Spec section 4.2: when no
credential exists and the interactive flow is disallowed in request
context, every API call fails fast with `CredentialsRequired` until an
operator supplies credentials out-of-band. -/
def resolve_credential (store : Option Credential) : Except ApiErrorKind Credential :=
  match store with
  | none => Except.error ApiErrorKind.CredentialsRequired
  | some c => Except.ok c

/-- Server-side state a request handler could in principle consult:
the credential obtained at startup, the onboarded project id, and
whether the startup setup steps succeeded. -/
structure ServerState where
  creds : Option Credential
  onboardedProject : Option String
  startupOk : Bool

/-- An HTTP response: status code, headers, body. -/
structure HttpResponse where
  status : Nat
  headers : List (String × String)
  body : String
  deriving DecidableEq, Repr

/-- Lines 96-107 of `app.py`: `handle_preflight`, registered for OPTIONS on
every path.  It returns status 200 with fixed CORS headers; it reads no
server state and performs no authentication check. -/
def handle_preflight (_full_path : String) : HttpResponse :=
  { status := 200
    headers :=
      [("Access-Control-Allow-Origin", "*"),
       ("Access-Control-Allow-Methods", "GET, POST, PUT, DELETE, PATCH, OPTIONS"),
       ("Access-Control-Allow-Headers", "*"),
       ("Access-Control-Allow-Credentials", "true")]
    body := "" }

/-- Lines 112-166 of `app.py`: the static landing page markup returned by
`root` (braces, quotes and apostrophes escaped). -/
def landing_page_html : String :=
  "\n    <html>\n        <head>\n            <title>Meihua Now</title>\n            <meta name=\"viewport\" content=\"width=device-width, initial-scale=1\">\n            <style>\n                body \x7b\n                    background: linear-gradient(120deg, #a1c4fd 0%, #c2e9fb 100%);\n                    font-family: \x27Segoe UI\x27, Arial, sans-serif;\n                    margin: 0;\n                    padding: 0;\n                \x7d\n                .container \x7b\n                    max-width: 480px;\n                    margin: 80px auto;\n                    background: rgba(255,255,255,0.95);\n                    border-radius: 16px;\n                    box-shadow: 0 4px 24px rgba(0,0,0,0.08);\n                    padding: 40px 32px;\n                    text-align: center;\n                \x7d\n                h1 \x7b\n                    color: #4a90e2;\n                    margin-bottom: 16px;\n                \x7d\n                p \x7b\n                    color: #333;\n                    font-size: 1.15em;\n                    margin-bottom: 24px;\n                \x7d\n                .footer \x7b\n                    margin-top: 32px;\n                    color: #aaa;\n                    font-size: 0.95em;\n                \x7d\n                .avatar \x7b\n                    width: 80px;\n                    height: 80px;\n                    border-radius: 50%;\n                    margin-bottom: 16px;\n                    box-shadow: 0 2px 8px #ccc;\n                \x7d\n            </style>\n        </head>\n        <body>\n            <div class=\"container\">\n                <img src=\"https://huggingface.co/front/assets/huggingface_logo-noborder.svg\" class=\"avatar\" alt=\"avatar\"/>\n                <h1>Meihua Now</h1>\n                <p>欢迎来到 Meihua Now 主页！<br>这是一个个人项目展示页面。</p>\n                <p>如需联系或了解更多，请访问 <a href=\"https://github.com/user/geminicli2api\" target=\"_blank\">GitHub 项目</a>。</p>\n                <div class=\"footer\">© 2024 Meihua Now</div>\n            </div>\n        </body>\n    </html>\n    "

/-- Lines 110-166 of `app.py`: the `root` endpoint (`@app.get("/")`,
`response_class=HTMLResponse`): status 200 with the static landing page;
it reads no server state and performs no authentication check. -/
def root : HttpResponse :=
  { status := 200
    headers := [("content-type", "text/html; charset=utf-8")]
    body := landing_page_html }

/-- The JSON body returned by the health check. -/
structure HealthBody where
  status : String
  service : String
  deriving DecidableEq, Repr

/-- Lines 169-172 of `app.py`: `health_check` (`@app.get("/health")`).
The handler takes no arguments and reads no state; it is modelled as a
function of the full server state to express that its result is
independent of it. -/
def health_check (_state : ServerState) : HealthBody :=
  ⟨"healthy", "geminicli2api"⟩

/-- Routes served by the application: the three collaborator-owned open
routes defined in `app.py`, and the authenticated proxy routes
contributed by the included routers. -/
inductive Route where
  | preflight (path : String)
  | landing
  | health
  | proxied (name : String)
  deriving DecidableEq, Repr

/-- Whether a route is gated by caller authentication.  The preflight,
landing and health handlers in `app.py` contain no check; per the spec
(section 6) every other endpoint is gated. -/
def requiresAuth : Route → Bool
  | Route.preflight _ => false
  | Route.landing => false
  | Route.health => false
  | Route.proxied _ => true

/-- Render the health body as its JSON wire form. -/
def healthJson (b : HealthBody) : String :=
  "\x7b\"status\": \"" ++ b.status ++ "\", \"service\": \"" ++ b.service ++ "\"\x7d"

/-- Modelled from the spec: a gated proxy route (the route modules are
not under `src/`).  The caller passed authentication; the handler then
resolves a credential, failing with `CredentialsRequired` when the store
is empty (spec sections 4.2 and 6). -/
def proxied_route (s : ServerState) (_name : String) : HttpResponse :=
  match resolve_credential s.creds with
  | Except.error _ => { status := 401, headers := [], body := "CredentialsRequired" }
  | Except.ok _ => { status := 200, headers := [], body := "" }

/-- Modelled from the spec: request dispatch with the caller-authentication
gate (spec section 6: a shared-secret check gates every endpoint except
the health, landing and preflight routes; those three handlers are the
ones defined in `app.py`). -/
def dispatch (s : ServerState) (callerAuthed : Bool) : Route → HttpResponse
  | Route.preflight p => handle_preflight p
  | Route.landing => root
  | Route.health =>
    { status := 200
      headers := [("content-type", "application/json")]
      body := healthJson (health_check s) }
  | Route.proxied n =>
    if callerAuthed then proxied_route s n
    else { status := 401, headers := [], body := "Unauthorized" }

/-- A credential is due for refresh when `expiry - now < skew_margin`
(spec section 4.3). -/
def needsRefresh (now skew : Int) (c : Credential) : Bool :=
  c.expiry - now < skew

/-- Result of `ensure_valid`: the credential handed to the caller and the
number of network (token-endpoint) calls issued. -/
structure RefreshOutcome where
  cred : Credential
  networkCalls : Nat
  deriving Repr

/-- Modelled from the spec: the Token Refresher's `ensure_valid` (the
`auth` module is not under `src/`).  Spec section 4.3: refresh is
triggered when `expiry - now < skew_margin`; otherwise the same
credential is returned unchanged with no network call.  `refresh` is the
token-endpoint exchange supplied by the backend. -/
def ensure_valid (now skew : Int) (refresh : Credential → Credential)
    (c : Credential) : RefreshOutcome :=
  if needsRefresh now skew c then ⟨refresh c, 1⟩ else ⟨c, 0⟩

/-- Result of `ensure_onboarded`: the project id returned, the number of
backend calls issued, and the credential afterwards. -/
structure OnboardOutcome where
  projectId : Option String
  backendCalls : Nat
  cred : Credential
  deriving Repr

/-- Modelled from the spec: Project Onboarding's `ensure_onboarded` (the
`auth` module is not under `src/`).  Spec section 4.4: guarded by the
`onboarded` flag; on an already-onboarded credential it is a no-op
returning the cached project id with zero backend calls; otherwise it
resolves the project id (calling the backend's project-listing/creation
capability, `resolveProject`) and marks the credential onboarded. -/
def ensure_onboarded (resolveProject : Credential → String)
    (c : Credential) : OnboardOutcome :=
  if c.onboarded then ⟨c.project_id, 0, c⟩
  else
    let pid :=
      match c.project_id with
      | some p => p
      | none => resolveProject c
    ⟨some pid, 1, { c with project_id := some pid, onboarded := true }⟩

/-- A backend reply: the generated content deltas in generation order and
the finish reason (spec sections 3 and 4.6). -/
structure BackendReply where
  parts : List String
  finishReason : Option String
  deriving DecidableEq, Repr

/-- One unit of a streamed response (spec section 3, TranslationChunk):
a delta of generated content, a terminal flag, an optional finish
reason. -/
structure TranslationChunk where
  delta : String
  terminal : Bool
  finishReason : Option String
  deriving DecidableEq, Repr

/-- Modelled from the spec: the Response Translator's streaming mode (the
route modules are not under `src/`).  Spec section 4.6: a finite ordered
sequence of chunks, one event per delta, closed by a terminal chunk
carrying the finish reason. -/
def translate_stream (r : BackendReply) : List TranslationChunk :=
  r.parts.map (fun p => ⟨p, false, none⟩) ++ [⟨"", true, r.finishReason⟩]

/-- Modelled from the spec: the Response Translator's batch mode (the
route modules are not under `src/`).  Spec section 4.6: one full response
object reconstructing the whole message text. -/
def translate_out (r : BackendReply) : String :=
  String.join r.parts

/-- The text a streaming consumer reconstructs: the deltas of the chunks
concatenated in delivery order. -/
def streamedText (chunks : List TranslationChunk) : String :=
  String.join (chunks.map TranslationChunk.delta)

/-- Conversation roles of the inbound schemas (spec section 3). -/
inductive Role where
  | system
  | user
  | assistant
  | tool
  deriving DecidableEq, Repr

/-- A message content part: plain text or a structured tool call (spec
sections 3 and 4.5). -/
inductive ContentPart where
  | text (s : String)
  | toolCall (name arguments : String)
  deriving DecidableEq, Repr

/-- One conversation turn: a role tag and its content parts. -/
structure Turn where
  role : Role
  parts : List ContentPart
  deriving DecidableEq, Repr

/-- Generation parameters of an inbound request (spec section 3;
temperature modelled in fixed-point thousandths). -/
structure GenParams where
  temperatureMilli : Option Int
  maxTokens : Option Nat
  stopSequences : List String
  unsupportedFields : List String
  deriving DecidableEq, Repr

/-- An inbound request in the normalized intermediate representation
(spec section 3, TranslationRequest). -/
structure TranslationRequest where
  turns : List Turn
  params : GenParams
  deriving DecidableEq, Repr

/-- Ambient process state a translation could in principle observe: a
clock and an entropy source.  Used to state that translation is pure. -/
structure World where
  clock : Int
  entropy : Nat
  deriving DecidableEq, Repr

/-- A backend content part after translation. -/
inductive BackendPart where
  | text (s : String)
  | functionCall (name arguments : String)
  deriving DecidableEq, Repr

/-- A backend conversation turn after translation. -/
structure BackendTurn where
  role : String
  parts : List BackendPart
  deriving DecidableEq, Repr

/-- The backend generation configuration after translation. -/
structure BackendConfig where
  temperatureMilli : Option Int
  maxOutputTokens : Option Nat
  stopSequences : List String
  deriving DecidableEq, Repr

/-- The backend call produced by request translation, with the warnings
recorded for dropped fields (spec section 4.5). -/
structure BackendCall where
  contents : List BackendTurn
  config : BackendConfig
  warnings : List String
  deriving DecidableEq, Repr

/-- Modelled from the spec: role mapping (spec section 4.5, a pure
function of the role; the route modules are not under `src/`). -/
def mapRole (_w : World) : Role → String
  | Role.system => "system"
  | Role.user => "user"
  | Role.assistant => "model"
  | Role.tool => "tool"

/-- Modelled from the spec: message-content-part mapping (spec section
4.5, a pure function of the part). -/
def mapContentPart (_w : World) : ContentPart → BackendPart
  | ContentPart.text s => BackendPart.text s
  | ContentPart.toolCall n a => BackendPart.functionCall n a

/-- Modelled from the spec: generation-parameter mapping (spec section
4.5): fields with a semantic counterpart are mapped, fields without one
are dropped with a recorded warning. -/
def mapParams (_w : World) (p : GenParams) : BackendConfig × List String :=
  (⟨p.temperatureMilli, p.maxTokens, p.stopSequences⟩,
   p.unsupportedFields.map (fun f => "dropped field: " ++ f))

/-- Modelled from the spec: the Request Translator `translate_in` (spec
section 4.5), assembled from the role, content-part and parameter
mappings.  It is given the ambient `World` so that purity is a theorem
rather than a convention. -/
def translate_in (w : World) (r : TranslationRequest) : BackendCall :=
  let cfg := mapParams w r.params
  { contents :=
      r.turns.map (fun t => ⟨mapRole w t.role, t.parts.map (mapContentPart w)⟩)
    config := cfg.1
    warnings := cfg.2 }

/-- Local state of one requester sharing the credential: not yet started,
waiting on the in-flight refresh, or finished holding a token. -/
inductive ProcState where
  | start
  | waiting
  | done (token : String)
  deriving DecidableEq, Repr

/-- Parameters of one refresh episode: the clock and skew margin, the
stored credential's token and expiry, and the token and expiry the
backend's token endpoint returns. -/
structure CoParams where
  now : Int
  skew : Int
  oldTok : String
  oldExp : Int
  newTok : String
  newExp : Int
  deriving DecidableEq, Repr

/-- Modelled from the spec: shared state of `N` concurrent requesters of
one credential (spec sections 4.3 and 5; the refresher's code is not
under `src/`).  `token`/`expiry` are the shared credential, `inFlight`
the coalescing lock, `result` the published outcome of the refresh,
`refreshCalls` the number of token-endpoint calls issued so far. -/
structure CoState (N : Nat) where
  token : String
  expiry : Int
  inFlight : Bool
  result : Option String
  refreshCalls : Nat
  procs : Fin N → ProcState

/-- Initial state of a refresh episode: credential as stored, no refresh
in flight, no result published, no refresh call issued, every requester
at start. -/
def initState (P : CoParams) (N : Nat) : CoState N :=
  ⟨P.oldTok, P.oldExp, false, none, 0, fun _ => ProcState.start⟩

/-- Modelled from the spec: the interleaving semantics of coalesced
refresh (spec sections 4.3 and 5).  A requester finding the credential
fresh takes it as is; a requester finding it expired starts a refresh
only when none is in flight, otherwise waits; the in-flight refresh
completes by installing the new token and publishing the result; a
waiting requester collects the published result. -/
inductive CoStep (P : CoParams) {N : Nat} : CoState N → CoState N → Prop where
  | fastPath (s : CoState N) (i : Fin N) :
      s.procs i = ProcState.start →
      ¬(s.expiry - P.now < P.skew) →
      CoStep P s { s with procs := Function.update s.procs i (ProcState.done s.token) }
  | beginRefresh (s : CoState N) (i : Fin N) :
      s.procs i = ProcState.start →
      s.expiry - P.now < P.skew →
      s.inFlight = false →
      CoStep P s { s with inFlight := true, refreshCalls := s.refreshCalls + 1,
                          procs := Function.update s.procs i ProcState.waiting }
  | joinRefresh (s : CoState N) (i : Fin N) :
      s.procs i = ProcState.start →
      s.expiry - P.now < P.skew →
      s.inFlight = true →
      CoStep P s { s with procs := Function.update s.procs i ProcState.waiting }
  | completeRefresh (s : CoState N) :
      s.inFlight = true →
      CoStep P s { s with inFlight := false, result := some P.newTok,
                          token := P.newTok, expiry := P.newExp }
  | collect (s : CoState N) (i : Fin N) (t : String) :
      s.procs i = ProcState.waiting →
      s.result = some t →
      CoStep P s { s with procs := Function.update s.procs i (ProcState.done t) }

/-- States reachable from the initial state of a refresh episode. -/
def CoReachable (P : CoParams) (N : Nat) (s : CoState N) : Prop :=
  Relation.ReflTransGen (CoStep P) (initState P N) s

/-- Invariant of a refresh episode whose stored credential is expired
(`oldExp - now < skew`) and whose refreshed credential is fresh
(`¬(newExp - now < skew)`). -/
def CoInv (P : CoParams) {N : Nat} (s : CoState N) : Prop :=
  s.refreshCalls ≤ 1
  ∧ (s.refreshCalls = 0 →
      s.inFlight = false ∧ s.result = none ∧ s.token = P.oldTok
        ∧ s.expiry = P.oldExp ∧ ∀ i, s.procs i = ProcState.start)
  ∧ (s.refreshCalls = 1 → s.inFlight = true ∨ s.result = some P.newTok)
  ∧ (s.inFlight = true →
      s.result = none ∧ s.token = P.oldTok ∧ s.expiry = P.oldExp ∧ s.refreshCalls = 1)
  ∧ (∀ t, s.result = some t →
      t = P.newTok ∧ s.inFlight = false ∧ s.token = P.newTok
        ∧ s.expiry = P.newExp ∧ s.refreshCalls = 1)
  ∧ (∀ i t, s.procs i = ProcState.done t → t = P.newTok)
  ∧ (∀ i, s.procs i = ProcState.waiting → s.refreshCalls = 1)

/-- A sample fully-populated, onboarded credential. -/
def sampleCredential : Credential :=
  ⟨"access-token", "refresh-token", 1000, some "proj", true⟩

/-- Sample environment: no credential source, and the interactive flow
yields nothing (a non-interactive startup). -/
def envNoCreds : StartupEnv :=
  { geminiCredsEnv := none
    credentialFileExists := false
    get_credentials := fun _ => Outcome.ok none
    get_user_project_id := fun _ => Outcome.ok none
    onboard_user := fun _ _ => Outcome.ok () }

/-- Sample environment: `GEMINI_CREDENTIALS` set to the empty string and
no credential file. -/
def envEmptyVar : StartupEnv :=
  { geminiCredsEnv := some ""
    credentialFileExists := false
    get_credentials := fun _ => Outcome.ok none
    get_user_project_id := fun _ => Outcome.ok none
    onboard_user := fun _ _ => Outcome.ok () }

/-- Sample environment: a credential file exists and loads cleanly. -/
def envWithFile : StartupEnv :=
  { geminiCredsEnv := none
    credentialFileExists := true
    get_credentials := fun _ => Outcome.ok (some sampleCredential)
    get_user_project_id := fun _ => Outcome.ok (some "proj")
    onboard_user := fun _ _ => Outcome.ok () }

/-- Sample environment: credentials load but project-id resolution
raises. -/
def envSetupFails : StartupEnv :=
  { geminiCredsEnv := some "x"
    credentialFileExists := false
    get_credentials := fun _ => Outcome.ok (some sampleCredential)
    get_user_project_id := fun _ => Outcome.exn "boom"
    onboard_user := fun _ _ => Outcome.ok () }

/-- Sample refresh-episode parameters: credential expired (expiry 10,
now 0, skew 30), refresh returns a token valid until 3600. -/
def coParams1 : CoParams :=
  ⟨0, 30, "old-token", 10, "new-token", 3600⟩

/-- Sample episode, step 0: one requester, initial state. -/
def coW0 : CoState 1 := initState coParams1 1

/-- Sample episode, step 1: the requester found the credential expired
and began the refresh. -/
def coW1 : CoState 1 :=
  { coW0 with inFlight := true, refreshCalls := coW0.refreshCalls + 1,
              procs := Function.update coW0.procs 0 ProcState.waiting }

/-- Sample episode, step 2: the refresh completed and published its
result. -/
def coW2 : CoState 1 :=
  { coW1 with inFlight := false, result := some coParams1.newTok,
              token := coParams1.newTok, expiry := coParams1.newExp }

/-- Sample episode, step 3: the requester collected the refreshed
token. -/
def coW3 : CoState 1 :=
  { coW2 with procs := Function.update coW2.procs 0 (ProcState.done coParams1.newTok) }

theorem coInv_init (P : CoParams) (N : Nat) : CoInv P (initState P N) := by
  unfold CoInv initState
  dsimp only
  refine ⟨by omega, fun _ => ⟨rfl, rfl, rfl, rfl, fun _ => rfl⟩, ?_, ?_, ?_, ?_, ?_⟩
  · intro h
    exact absurd h (by decide)
  · intro h
    exact absurd h (by decide)
  · intro t h
    exact Option.noConfusion h
  · intro i t h
    exact ProcState.noConfusion h
  · intro i h
    exact ProcState.noConfusion h

theorem coInv_step (P : CoParams) {N : Nat} {s s' : CoState N}
    (hOld : P.oldExp - P.now < P.skew)
    (hNew : ¬(P.newExp - P.now < P.skew))
    (hInv : CoInv P s) (hStep : CoStep P s s') : CoInv P s' := by
  obtain ⟨h1, h2, h3, h4, h5, h6, h7⟩ := hInv
  cases hStep with
  | fastPath i hi hfresh =>
    have hc0 : s.refreshCalls ≠ 0 := by
      intro hc
      obtain ⟨-, -, -, hExp, -⟩ := h2 hc
      rw [hExp] at hfresh
      exact hfresh hOld
    have hc1 : s.refreshCalls = 1 := by omega
    have hres : s.result = some P.newTok := by
      rcases h3 hc1 with hfl | hres
      · obtain ⟨-, -, hExp, -⟩ := h4 hfl
        rw [hExp] at hfresh
        exact (hfresh hOld).elim
      · exact hres
    have htok : s.token = P.newTok := ((h5 _ hres).2.2).1
    refine ⟨h1, fun hc => absurd hc hc0, h3, h4, h5, ?_, fun _ _ => hc1⟩
    intro j t hj
    dsimp only at hj
    rcases eq_or_ne j i with rfl | hne
    · rw [Function.update_same] at hj
      injection hj with hj
      subst hj
      exact htok
    · rw [Function.update_noteq hne] at hj
      exact h6 j t hj
  | beginRefresh i hi hexp hnofl =>
    have hres : s.result = none := by
      cases hr : s.result with
      | none => rfl
      | some t =>
        obtain ⟨-, -, -, hExp, -⟩ := h5 t hr
        rw [hExp] at hexp
        exact (hNew hexp).elim
    have hc0 : s.refreshCalls = 0 := by
      rcases Nat.le_one_iff_eq_zero_or_eq_one.mp h1 with h | h
      · exact h
      · rcases h3 h with hfl | hsome
        · rw [hfl] at hnofl
          cases hnofl
        · rw [hsome] at hres
          cases hres
    obtain ⟨-, -, hTok, hExp, hAll⟩ := h2 hc0
    refine ⟨by dsimp only; omega, fun hc => absurd hc (by dsimp only; omega),
      fun _ => Or.inl rfl, ?_, ?_, ?_, fun _ _ => by dsimp only; omega⟩
    · intro _
      exact ⟨hres, hTok, hExp, by dsimp only; omega⟩
    · intro t ht
      dsimp only at ht
      rw [hres] at ht
      exact Option.noConfusion ht
    · intro j t hj
      dsimp only at hj
      rcases eq_or_ne j i with rfl | hne
      · rw [Function.update_same] at hj
        exact ProcState.noConfusion hj
      · rw [Function.update_noteq hne] at hj
        exact h6 j t hj
  | joinRefresh i hi hexp hfl =>
    obtain ⟨hres, hTok, hExp, hc1⟩ := h4 hfl
    refine ⟨h1, fun hc => absurd hc (by dsimp only; omega), h3, h4, h5, ?_,
      fun _ _ => hc1⟩
    intro j t hj
    dsimp only at hj
    rcases eq_or_ne j i with rfl | hne
    · rw [Function.update_same] at hj
      exact ProcState.noConfusion hj
    · rw [Function.update_noteq hne] at hj
      exact h6 j t hj
  | completeRefresh hfl =>
    obtain ⟨hres, hTok, hExp, hc1⟩ := h4 hfl
    refine ⟨h1, fun hc => absurd hc (by dsimp only; omega), fun _ => Or.inr rfl,
      ?_, ?_, h6, fun j hj => h7 j hj⟩
    · intro h
      dsimp only at h
      exact Bool.noConfusion h
    · intro t ht
      dsimp only at ht
      injection ht with ht
      subst ht
      exact ⟨rfl, rfl, rfl, rfl, hc1⟩
  | collect i t hi hres =>
    obtain ⟨rfl, -, -, -, hc1⟩ := h5 t hres
    refine ⟨h1, fun hc => absurd hc (by dsimp only; omega), h3, h4, h5, ?_,
      fun j hj => ?_⟩
    · intro j t' hj
      dsimp only at hj
      rcases eq_or_ne j i with rfl | hne
      · rw [Function.update_same] at hj
        injection hj with hj
        subst hj
        rfl
      · rw [Function.update_noteq hne] at hj
        exact h6 j t' hj
    · dsimp only at hj
      rcases eq_or_ne j i with rfl | hne
      · rw [Function.update_same] at hj
        exact ProcState.noConfusion hj
      · rw [Function.update_noteq hne] at hj
        exact h7 j hj

theorem coInv_reachable (P : CoParams) (N : Nat) (s : CoState N)
    (hOld : P.oldExp - P.now < P.skew)
    (hNew : ¬(P.newExp - P.now < P.skew))
    (h : CoReachable P N s) : CoInv P s := by
  induction h with
  | refl => exact coInv_init P N
  | tail hsteps hstep ih => exact coInv_step P hOld hNew ih hstep

theorem get_credentials_not_mem_setup_block (env : StartupEnv) (creds : Credential)
    (b : Bool) : ApiCall.get_credentials b ∉ setup_block env creds := by
  unfold setup_block
  cases h : env.get_user_project_id creds with
  | exn e => simp
  | ok v =>
    cases v with
    | none => simp
    | some pid =>
      by_cases hp : pid.isEmpty
      · simp [hp]
      · cases ho : env.onboard_user creds pid with
        | exn e => simp [hp, ho]
        | ok u => simp [hp, ho]

theorem startup_calls_with_creds (env : StartupEnv)
    (hb : (pyStrTruthy env.geminiCredsEnv || env.credentialFileExists) = true) :
    startup_calls env = (with_creds_branch env).calls := by
  unfold startup_calls startup_event
  rw [hb]
  rfl

theorem startup_calls_oauth (env : StartupEnv)
    (hb : (pyStrTruthy env.geminiCredsEnv || env.credentialFileExists) = false) :
    startup_calls env = (oauth_branch env).calls := by
  unfold startup_calls startup_event
  rw [hb]
  rfl

theorem with_creds_branch_calls (env : StartupEnv) :
    ApiCall.get_credentials false ∈ (with_creds_branch env).calls
    ∧ ApiCall.get_credentials true ∉ (with_creds_branch env).calls := by
  unfold with_creds_branch
  cases h : env.get_credentials false with
  | exn e => simp
  | ok v =>
    cases v with
    | none => simp
    | some creds =>
      simp [get_credentials_not_mem_setup_block env creds true]

theorem oauth_branch_calls (env : StartupEnv) :
    ApiCall.get_credentials true ∈ (oauth_branch env).calls := by
  unfold oauth_branch
  cases h : env.get_credentials true with
  | exn e => simp
  | ok v =>
    cases v with
    | none => simp
    | some creds => simp

/-- C1: when no credential exists (environment variable absent or empty,
credential file absent) and the interactive flow is disallowed — the
interactive attempt can only yield no credential or raise — startup
completes without raising, leaves the server unauthenticated (no
credential held), and credential resolution fails fast with
`CredentialsRequired` on every request until a credential is supplied
out-of-band (resolution succeeds once a credential exists). -/
theorem startup_no_creds_degraded (env : StartupEnv)
    (hEnv : pyStrTruthy env.geminiCredsEnv = false)
    (hFile : env.credentialFileExists = false)
    (hNoFlow : env.get_credentials true = Outcome.ok none
      ∨ ∃ e, env.get_credentials true = Outcome.exn e) :
    (∃ t, startup_event env = Outcome.ok t ∧ t.creds = none)
    ∧ resolve_credential (startup_creds env)
        = Except.error ApiErrorKind.CredentialsRequired
    ∧ ∀ c, resolve_credential (some c) = Except.ok c := by
  have hb : (pyStrTruthy env.geminiCredsEnv || env.credentialFileExists) = false := by
    rw [hEnv, hFile]
    rfl
  have hcreds : (oauth_branch env).creds = none := by
    unfold oauth_branch
    rcases hNoFlow with h | ⟨e, h⟩ <;> rw [h]
  refine ⟨⟨oauth_branch env, ?_, hcreds⟩, ?_, fun c => rfl⟩
  · unfold startup_event
    rw [hb]
    rfl
  · unfold startup_creds startup_event
    rw [hb]
    show resolve_credential (oauth_branch env).creds = _
    rw [hcreds]
    rfl

theorem startup_no_creds_degraded_witness :
    resolve_credential (startup_creds envNoCreds)
      = Except.error ApiErrorKind.CredentialsRequired :=
  (startup_no_creds_degraded envNoCreds rfl rfl (Or.inl rfl)).2.1

/-- C2 counterexample: with `GEMINI_CREDENTIALS` set (to the empty
string) and no credential file, startup invokes the interactive flow
(`get_credentials(allow_oauth_flow=True)`) and never calls it with the
flow disallowed, contradicting the claim as stated. -/
theorem startup_oauth_flag_counterexample :
    envEmptyVar.geminiCredsEnv.isSome = true
    ∧ envEmptyVar.credentialFileExists = false
    ∧ startup_calls envEmptyVar = [ApiCall.get_credentials true] := by
  refine ⟨rfl, rfl, rfl⟩

/-- C2 (amended): for every startup where `GEMINI_CREDENTIALS` is set to
a non-empty value or the credential file exists, credentials are loaded
with the OAuth flow disallowed (`allow_oauth_flow=False`) and the
interactive flow is never invoked; the interactive flow is invoked only
when the variable is absent or empty and the file is absent. -/
theorem startup_oauth_flag (env : StartupEnv) :
    ((pyStrTruthy env.geminiCredsEnv || env.credentialFileExists) = true →
      ApiCall.get_credentials false ∈ startup_calls env
        ∧ ApiCall.get_credentials true ∉ startup_calls env)
    ∧ (ApiCall.get_credentials true ∈ startup_calls env →
      pyStrTruthy env.geminiCredsEnv = false ∧ env.credentialFileExists = false) := by
  constructor
  · intro hb
    rw [startup_calls_with_creds env hb]
    exact with_creds_branch_calls env
  · intro hmem
    cases hb : (pyStrTruthy env.geminiCredsEnv || env.credentialFileExists) with
    | true =>
      rw [startup_calls_with_creds env hb] at hmem
      exact absurd hmem (with_creds_branch_calls env).2
    | false =>
      exact ⟨(Bool.or_eq_false_iff.mp hb).1, (Bool.or_eq_false_iff.mp hb).2⟩

theorem startup_oauth_flag_witness :
    ApiCall.get_credentials false ∈ startup_calls envWithFile
    ∧ ApiCall.get_credentials true ∉ startup_calls envWithFile :=
  (startup_oauth_flag envWithFile).1 rfl

/-- C8: for every startup in which credentials load successfully but
project-id resolution or onboarding raises, startup is non-fatal: the
startup event still returns normally, holding the loaded credential. -/
theorem startup_setup_failure_nonfatal (env : StartupEnv) (creds : Credential) (e : String)
    (hLoad : env.get_credentials
        (!(pyStrTruthy env.geminiCredsEnv || env.credentialFileExists))
      = Outcome.ok (some creds))
    (hFail : env.get_user_project_id creds = Outcome.exn e
      ∨ ∃ pid, env.get_user_project_id creds = Outcome.ok (some pid)
          ∧ pid.isEmpty = false ∧ env.onboard_user creds pid = Outcome.exn e) :
    ∃ t, startup_event env = Outcome.ok t ∧ t.creds = some creds := by
  cases hb : (pyStrTruthy env.geminiCredsEnv || env.credentialFileExists) with
  | true =>
    rw [hb] at hLoad
    simp only [Bool.not_true] at hLoad
    refine ⟨with_creds_branch env, ?_, ?_⟩
    · unfold startup_event
      rw [hb]
      rfl
    · unfold with_creds_branch
      rw [hLoad]
  | false =>
    rw [hb] at hLoad
    simp only [Bool.not_false] at hLoad
    refine ⟨oauth_branch env, ?_, ?_⟩
    · unfold startup_event
      rw [hb]
      rfl
    · unfold oauth_branch
      rw [hLoad]

theorem startup_setup_failure_nonfatal_witness :
    ∃ t, startup_event envSetupFails = Outcome.ok t
      ∧ t.creds = some sampleCredential :=
  startup_setup_failure_nonfatal envSetupFails sampleCredential "boom" rfl (Or.inl rfl)

/-- C3: in every reachable state of a refresh episode whose stored
credential is within the skew margin or past expiry, at most one refresh
call has been issued, every requester that has finished holds the
refreshed token, and once all N requesters (N positive) have finished,
exactly one refresh call was issued. -/
theorem refresh_coalescing (P : CoParams) (N : Nat) (s : CoState N)
    (hOld : P.oldExp - P.now < P.skew)
    (hNew : ¬(P.newExp - P.now < P.skew))
    (hReach : CoReachable P N s) :
    s.refreshCalls ≤ 1
    ∧ (∀ i t, s.procs i = ProcState.done t → t = P.newTok)
    ∧ ((∀ i, ∃ t, s.procs i = ProcState.done t) → 0 < N → s.refreshCalls = 1) := by
  obtain ⟨h1, h2, h3, h4, h5, h6, h7⟩ := coInv_reachable P N s hOld hNew hReach
  refine ⟨h1, h6, ?_⟩
  intro hall hN
  rcases Nat.le_one_iff_eq_zero_or_eq_one.mp h1 with hc | hc
  · obtain ⟨-, -, -, -, hstart⟩ := h2 hc
    obtain ⟨t, hdone⟩ := hall ⟨0, hN⟩
    rw [hstart] at hdone
    exact ProcState.noConfusion hdone
  · exact hc

theorem refresh_coalescing_witness :
    coW3.refreshCalls = 1 := by
  have hstep1 : CoStep coParams1 coW0 coW1 :=
    CoStep.beginRefresh coW0 0 rfl (by decide) rfl
  have hstep2 : CoStep coParams1 coW1 coW2 :=
    CoStep.completeRefresh coW1 rfl
  have hstep3 : CoStep coParams1 coW2 coW3 :=
    CoStep.collect coW2 0 coParams1.newTok (by simp [coW2, coW1, Function.update_same]) rfl
  have hreach : CoReachable coParams1 1 coW3 :=
    Relation.ReflTransGen.head hstep1 (Relation.ReflTransGen.head hstep2
      (Relation.ReflTransGen.head hstep3 Relation.ReflTransGen.refl))
  refine (refresh_coalescing coParams1 1 coW3 (by decide) (by decide) hreach).2.2 ?_ (by decide)
  intro i
  refine ⟨coParams1.newTok, ?_⟩
  have hi : i = 0 := Fin.eq_zero i
  rw [hi]
  simp [coW3, Function.update_same]

/-- C4: a credential whose expiry lies beyond the skew margin is returned
unchanged by `ensure_valid`, with no network call. -/
theorem ensure_valid_fresh (now skew : Int) (refresh : Credential → Credential)
    (c : Credential) (hFresh : skew ≤ c.expiry - now) :
    ensure_valid now skew refresh c = ⟨c, 0⟩ := by
  have h : needsRefresh now skew c = false := by
    unfold needsRefresh
    exact decide_eq_false (not_lt.mpr hFresh)
  unfold ensure_valid
  rw [h]
  rfl

theorem ensure_valid_fresh_witness :
    ensure_valid 0 30 (fun c => c) sampleCredential = ⟨sampleCredential, 0⟩ :=
  ensure_valid_fresh 0 30 (fun c => c) sampleCredential (by decide)

/-- C5: `ensure_onboarded` on an already-onboarded credential makes zero
backend calls and returns the cached project id, leaving the credential
unchanged. -/
theorem ensure_onboarded_idempotent (resolveProject : Credential → String)
    (c : Credential) (h : c.onboarded = true) :
    ensure_onboarded resolveProject c = ⟨c.project_id, 0, c⟩ := by
  unfold ensure_onboarded
  rw [h]
  rfl

theorem ensure_onboarded_idempotent_witness :
    ensure_onboarded (fun _ => "other") sampleCredential
      = ⟨sampleCredential.project_id, 0, sampleCredential⟩ :=
  ensure_onboarded_idempotent (fun _ => "other") sampleCredential rfl

theorem join_concat_empty (l : List String) :
    String.join (l ++ [""]) = String.join l := by
  induction l with
  | nil => rfl
  | cons x xs ih =>
    simp only [List.cons_append, String.join]
    simp only [String.join] at ih
    simp [List.foldl, ih]

/-- C6: the deltas of the streamed chunks, concatenated in delivery
order, reconstruct exactly the text of the batch translation of the same
backend reply. -/
theorem stream_batch_agree (r : BackendReply) :
    streamedText (translate_stream r) = translate_out r := by
  unfold streamedText translate_stream translate_out
  rw [List.map_append, List.map_map]
  have hmap : (TranslationChunk.delta ∘ fun p => (⟨p, false, none⟩ : TranslationChunk))
      = fun p => p := rfl
  rw [hmap, List.map_id']
  exact join_concat_empty r.parts

/-- C7: request translation is pure and deterministic: its result does
not depend on the ambient world (clock, entropy), so re-running it on
identical input yields identical output. -/
theorem translate_in_pure (w1 w2 : World) (r : TranslationRequest) :
    translate_in w1 r = translate_in w2 r := rfl

/-- C9: the preflight, landing and health handlers answer status 200 for
every request and every server state, their responses are independent of
caller authentication, and none of them is auth-gated, while every
proxied route is auth-gated and answers 401 to an unauthenticated
caller. -/
theorem open_routes_unauthenticated (s : ServerState) (authed : Bool) (p n : String) :
    (dispatch s authed (Route.preflight p)).status = 200
    ∧ dispatch s authed (Route.preflight p) = dispatch s (!authed) (Route.preflight p)
    ∧ (dispatch s authed Route.landing).status = 200
    ∧ dispatch s authed Route.landing = dispatch s (!authed) Route.landing
    ∧ (dispatch s authed Route.health).status = 200
    ∧ dispatch s authed Route.health = dispatch s (!authed) Route.health
    ∧ requiresAuth (Route.preflight p) = false
    ∧ requiresAuth Route.landing = false
    ∧ requiresAuth Route.health = false
    ∧ requiresAuth (Route.proxied n) = true
    ∧ (dispatch s false (Route.proxied n)).status = 401 :=
  ⟨rfl, rfl, rfl, rfl, rfl, rfl, rfl, rfl, rfl, rfl, rfl⟩

/-- C10: the health check is a constant function of the server state:
it always returns exactly the body with status "healthy" and service
"geminicli2api", whether or not startup succeeded. -/
theorem health_check_constant (s : ServerState) :
    health_check s = ⟨"healthy", "geminicli2api"⟩ := rfl

end Meihua
